import Mathlib

/-!
# Shallow embedding of the network store and the connection-edge renderer

Two store variants appear in the sources: the one in
`src/client/src/lib/store.ts` (suffixed `A` below) and the one in
`src/unnamed/part_000` (suffixed `B`). Operations whose bodies are identical
in both variants are defined once, unsuffixed. The `ConnectionEdge`
presentational component from `src/client/src/lib/store.ts` is embedded as a
pure function of its render props.

Modelling conventions for the JavaScript/TypeScript source:
an object field that may be absent or `undefined` is an `Option`; a shallow
merge `{...old, ...patch}` keeps a patch field when it is present and the old
one otherwise (an explicitly-`undefined` patch entry is identified with an
absent one, which is observationally equivalent for this code); numeric
fields, which only ever hold the store's literal constants, are rationals
(decimal literals such as `0.5` and `0.02` are taken exactly); ids stay
strings; `===` on strings and on string-enum values is equality.
-/

namespace Whamo

/-- Node variants of the shared schema's `NodeType` handled by `addNode`. -/
inductive NodeType where
  | reservoir
  | node
  | junction
  | surgeTank
  | flowBoundary
  deriving DecidableEq, Repr

/-- Link variants of the shared schema's `LinkType` consulted by the store. -/
inductive LinkType where
  | conduit
  | dummy
  deriving DecidableEq, Repr

/-- The `'node' | 'edge'` discriminator of `deleteElement`/`selectElement`. -/
inductive ElemKind where
  | node
  | edge
  deriving DecidableEq, Repr

/-- A 2D canvas position `{ x, y }`. -/
structure Pos where
  x : Rat := 0
  y : Rat := 0
  deriving DecidableEq, Repr

/-- `NodeData`: the node attribute bag. In the TypeScript interface `label`
and `type` are required and the rest optional, but values reaching the store
through merges may lack any field, so every field is modelled as present or
absent. -/
structure NodeData where
  label : Option String := none
  type : Option NodeType := none
  elevation : Option Rat := none
  nodeNumber : Option Int := none
  comment : Option String := none
  topElevation : Option Rat := none
  bottomElevation : Option Rat := none
  diameter : Option Rat := none
  celerity : Option Rat := none
  friction : Option Rat := none
  scheduleNumber : Option Int := none
  deriving DecidableEq, Repr

/-- `EdgeData`: the edge attribute bag, every field present-or-absent as for
`NodeData`. An edge whose `data` is `undefined` is identified with the
all-absent record, which the code cannot distinguish (it only ever reads
fields through `e.data?.type`-style access or spreads the object). -/
structure EdgeData where
  label : Option String := none
  type : Option LinkType := none
  length : Option Rat := none
  diameter : Option Rat := none
  celerity : Option Rat := none
  friction : Option Rat := none
  numSegments : Option Rat := none
  cplus : Option Rat := none
  cminus : Option Rat := none
  comment : Option String := none
  deriving DecidableEq, Repr

/-- The CSS-ish inline style objects the store attaches to edges. -/
structure EdgeStyle where
  stroke : Option String := none
  strokeWidth : Option Rat := none
  strokeDasharray : Option String := none
  deriving DecidableEq, Repr

/-- The host library's `MarkerType` enumeration. -/
inductive MarkerType where
  | arrow
  | arrowClosed
  deriving DecidableEq, Repr

/-- An edge-end marker descriptor `{ type, color }`. -/
structure Marker where
  type : MarkerType
  color : Option String := none
  deriving DecidableEq, Repr

/-- A `WhamoNode`: id, schema type, canvas position and attribute bag. -/
structure Node where
  id : String
  type : NodeType
  position : Pos := {}
  data : NodeData := {}
  deriving DecidableEq, Repr

/-- A `WhamoEdge`: id, endpoint node ids and handles, the host library's
rendering `type` string, presentation style and end marker, attribute bag. -/
structure Edge where
  id : String
  source : String
  target : String
  sourceHandle : Option String := none
  targetHandle : Option String := none
  type : Option String := none
  style : EdgeStyle := {}
  markerEnd : Option Marker := none
  data : EdgeData := {}
  deriving DecidableEq, Repr

/-- A connection candidate handed to `onConnect` by the canvas. -/
structure Connection where
  source : String
  target : String
  sourceHandle : Option String := none
  targetHandle : Option String := none
  deriving DecidableEq, Repr

/-- The store's observable state together with the module-global `idCounter`
(a hidden piece of process state threaded explicitly here). -/
structure NetworkState where
  nodes : List Node
  edges : List Edge
  selectedElementId : Option String
  selectedElementType : Option ElemKind
  idCounter : Int
  deriving DecidableEq, Repr

/-- The store's initial state: empty collections, no selection, counter 1. -/
def initialState : NetworkState :=
  { nodes := [], edges := [], selectedElementId := none,
    selectedElementType := none, idCounter := 1 }

/-! ## JavaScript numeric parsing -/

/-- The value of a decimal digit character, `none` for a non-digit. -/
def decDigitVal (c : Char) : Option Nat :=
  if c.isDigit then some (c.toNat - 48) else none

/-- The value of a hexadecimal digit character, `none` for a non-digit. -/
def hexDigitVal (c : Char) : Option Nat :=
  if c.isDigit then some (c.toNat - 48)
  else if 'a' ≤ c ∧ c ≤ 'f' then some (c.toNat - 87)
  else if 'A' ≤ c ∧ c ≤ 'F' then some (c.toNat - 55)
  else none

/-- The value of the longest prefix of `cs` made of digits under the digit
reader `f` in the given base; `none` when that prefix is empty (`parseInt`
yields `NaN` then). -/
def leadingDigitsVal (f : Char → Option Nat) (base : Nat) (cs : List Char) : Option Nat :=
  let ds := cs.takeWhile (fun c => (f c).isSome)
  if ds.isEmpty then none
  else some (ds.foldl (fun a c => a * base + (f c).getD 0) 0)

/-- JavaScript `parseInt(s)` with no radix argument: skip leading whitespace,
read an optional sign, auto-detect a `0x`/`0X` hexadecimal prefix, read the
longest run of digits and ignore the rest of the string; `none` models `NaN`.
(JS numbers lose integer precision above 2^53; the model is exact, which
agrees with the source on every id the store itself can generate.) -/
def parseIntJS (s : String) : Option Int :=
  let cs := s.data.dropWhile (fun c => c.isWhitespace)
  let signAndRest : Int × List Char :=
    match cs with
    | '-' :: rest => (-1, rest)
    | '+' :: rest => (1, rest)
    | _ => (1, cs)
  let mag : Option Nat :=
    match signAndRest.2 with
    | '0' :: 'x' :: rest => leadingDigitsVal hexDigitVal 16 rest
    | '0' :: 'X' :: rest => leadingDigitsVal hexDigitVal 16 rest
    | rest => leadingDigitsVal decDigitVal 10 rest
  mag.map (fun m => signAndRest.1 * (m : Int))

/-- The source idiom `parseInt(x) || 0`: `NaN` falls back to 0 (and a parsed
0, also falsy, stays 0). -/
def parseIntOr0 (s : String) : Int :=
  (parseIntJS s).getD 0

/-- How a JS number renders inside a template literal: its decimal form, or
`NaN` for the not-a-number value (modelled as `none`). -/
def jsNumStr (n : Option Int) : String :=
  match n with
  | some v => toString v
  | none => "NaN"

/-! ## Shared helpers of the store -/

/-- `getId`, i.e. `` `${idCounter++}` ``: the current counter rendered as a
string, and the bumped counter. -/
def getId (c : Int) : String × Int :=
  (toString c, c + 1)

/-- JS shallow merge `{...old, ...patch}` on node data: a patch field wins
when present. -/
def NodeData.merge (old patch : NodeData) : NodeData :=
  { label := patch.label <|> old.label
    type := patch.type <|> old.type
    elevation := patch.elevation <|> old.elevation
    nodeNumber := patch.nodeNumber <|> old.nodeNumber
    comment := patch.comment <|> old.comment
    topElevation := patch.topElevation <|> old.topElevation
    bottomElevation := patch.bottomElevation <|> old.bottomElevation
    diameter := patch.diameter <|> old.diameter
    celerity := patch.celerity <|> old.celerity
    friction := patch.friction <|> old.friction
    scheduleNumber := patch.scheduleNumber <|> old.scheduleNumber }

/-- JS shallow merge `{...old, ...patch}` on edge data. -/
def EdgeData.merge (old patch : EdgeData) : EdgeData :=
  { label := patch.label <|> old.label
    type := patch.type <|> old.type
    length := patch.length <|> old.length
    diameter := patch.diameter <|> old.diameter
    celerity := patch.celerity <|> old.celerity
    friction := patch.friction <|> old.friction
    numSegments := patch.numSegments <|> old.numSegments
    cplus := patch.cplus <|> old.cplus
    cminus := patch.cminus <|> old.cminus
    comment := patch.comment <|> old.comment }

/-- Solid blue presentation style `{ stroke: '#3b82f6', strokeWidth: 2 }`. -/
def conduitStyle : EdgeStyle :=
  { stroke := some "#3b82f6", strokeWidth := some 2 }

/-- Blue closed-arrow end marker. -/
def conduitMarker : Marker :=
  { type := MarkerType.arrowClosed, color := some "#3b82f6" }

/-- Dashed gray presentation style
`{ stroke: '#94a3b8', strokeWidth: 2, strokeDasharray: '5,5' }`. -/
def dummyStyle : EdgeStyle :=
  { stroke := some "#94a3b8", strokeWidth := some 2, strokeDasharray := some "5,5" }

/-- Gray closed-arrow end marker. -/
def dummyMarker : Marker :=
  { type := MarkerType.arrowClosed, color := some "#94a3b8" }

/-- Slate presentation style `{ stroke: '#64748b', strokeWidth: 2 }` used by
the `part_000` variant's `onConnect`. -/
def connectionStyleB : EdgeStyle :=
  { stroke := some "#64748b", strokeWidth := some 2 }

/-- Slate closed-arrow end marker of the `part_000` variant's `onConnect`. -/
def connectionMarkerB : Marker :=
  { type := MarkerType.arrowClosed, color := some "#64748b" }

/-- The default engineering attributes both variants give a new connection:
length 1000, diameter 0.5, celerity 1000, friction 0.02, numSegments 1. -/
def defaultConnectionData (label : String) : EdgeData :=
  { label := some label, type := some LinkType.conduit, length := some 1000,
    diameter := some 0.5, celerity := some 1000, friction := some 0.02,
    numSegments := some 1 }

/-- Modelled from the spec: `addEdge` comes from the host diagramming library
`@xyflow/react`, whose code is not part of this repository's sources. Per the
spec the decorated connection is appended to the edge collection, with no
validation that source differs from target and no duplicate check —
"duplicates are permitted". -/
def addEdge (e : Edge) (es : List Edge) : List Edge :=
  es ++ [e]

/-! ## Store operations -/

/-- `onConnect` of the `store.ts` variant: fresh id, rendering type
`conduit`, solid blue style and marker, label `C-{id}`, default engineering
attributes, appended via `addEdge`. -/
def onConnectA (s : NetworkState) (c : Connection) : NetworkState :=
  let idc := getId s.idCounter
  let e : Edge :=
    { id := idc.1, source := c.source, target := c.target,
      sourceHandle := c.sourceHandle, targetHandle := c.targetHandle,
      type := some "conduit", style := conduitStyle,
      markerEnd := some conduitMarker,
      data := defaultConnectionData ("C-" ++ idc.1) }
  { s with edges := addEdge e s.edges, idCounter := idc.2 }

/-- `onConnect` of the `part_000` variant: fresh id, rendering type
`connection`, slate style and marker, label `C{n}` where `n` is one more than
the number of existing edges whose data type is `conduit`, same default
engineering attributes, appended via `addEdge`. -/
def onConnectB (s : NetworkState) (c : Connection) : NetworkState :=
  let idc := getId s.idCounter
  let conduitCount := (s.edges.filter (fun e => e.data.type == some LinkType.conduit)).length
  let connectionLabel := "C" ++ toString (conduitCount + 1)
  let e : Edge :=
    { id := idc.1, source := c.source, target := c.target,
      sourceHandle := c.sourceHandle, targetHandle := c.targetHandle,
      type := some "connection", style := connectionStyleB,
      markerEnd := some connectionMarkerB,
      data := defaultConnectionData connectionLabel }
  { s with edges := addEdge e s.edges, idCounter := idc.2 }

/-- `addNode`, identical in both variants: fresh id, variant-specific default
attribute set, appended to the node collection. -/
def addNode (s : NetworkState) (t : NodeType) (position : Pos) : NetworkState :=
  let idc := getId s.idCounter
  let base : NodeData := { label := some "", type := some t }
  let nodeNumber := parseIntJS idc.1
  let initialData : NodeData :=
    match t with
    | NodeType.reservoir =>
        { base with label := some "HW", nodeNumber := nodeNumber,
                    elevation := some 100 }
    | NodeType.node =>
        { base with label := some ("Node " ++ jsNumStr nodeNumber),
                    nodeNumber := nodeNumber, elevation := some 50 }
    | NodeType.junction =>
        { base with label := some ("Node " ++ jsNumStr nodeNumber),
                    nodeNumber := nodeNumber, elevation := some 50 }
    | NodeType.surgeTank =>
        { base with label := some "ST", nodeNumber := nodeNumber,
                    topElevation := some 120, bottomElevation := some 80,
                    diameter := some 5, celerity := some 1000,
                    friction := some 0.01 }
    | NodeType.flowBoundary =>
        { base with label := some ("FB" ++ idc.1), nodeNumber := nodeNumber,
                    scheduleNumber := some 1 }
  let newNode : Node := { id := idc.1, type := t, position := position, data := initialData }
  { s with nodes := s.nodes ++ [newNode], idCounter := idc.2 }

/-- `updateNodeData`, identical in both variants: shallow-merge the patch into
the data of the node with the given id, leave every other node as it is. -/
def updateNodeData (s : NetworkState) (id : String) (data : NodeData) : NetworkState :=
  { s with nodes := s.nodes.map (fun node =>
      if node.id == id then { node with data := node.data.merge data } else node) }

/-- `updateEdgeData` of the `store.ts` variant: shallow-merge the patch into
the matching edge's data; when the patch's `type` is `conduit` or `dummy`,
also recompute the presentation style and end marker. -/
def updateEdgeDataA (s : NetworkState) (id : String) (data : EdgeData) : NetworkState :=
  { s with edges := s.edges.map (fun edge =>
      if edge.id == id then
        let newData := edge.data.merge data
        let styleAndMarker : EdgeStyle × Option Marker :=
          if data.type == some LinkType.conduit then
            (conduitStyle, some conduitMarker)
          else if data.type == some LinkType.dummy then
            (dummyStyle, some dummyMarker)
          else
            (edge.style, edge.markerEnd)
        { edge with data := newData, style := styleAndMarker.1,
                    markerEnd := styleAndMarker.2 }
      else edge) }

/-- `updateEdgeData` of the `part_000` variant: its body is elided in the
source ("... implementation (no changes here for now, keeping it simple for
the edit tool)"), so it performs no state update at all. -/
def updateEdgeDataB (s : NetworkState) (_id : String) (_data : EdgeData) : NetworkState :=
  s

/-- `deleteElement` (present only in the `part_000` variant): deleting a node
drops it from the node collection and drops every edge whose source or target
is that id; deleting an edge drops it from the edge collection; in either
case both selection fields are nulled exactly when `selectedElementId` equals
the deleted id. -/
def deleteElement (s : NetworkState) (id : String) (t : ElemKind) : NetworkState :=
  if t = ElemKind.node then
    { s with
      nodes := s.nodes.filter (fun n => n.id != id),
      edges := s.edges.filter (fun e => e.source != id && e.target != id),
      selectedElementId := if s.selectedElementId == some id then none else s.selectedElementId,
      selectedElementType := if s.selectedElementId == some id then none else s.selectedElementType }
  else
    { s with
      edges := s.edges.filter (fun e => e.id != id),
      selectedElementId := if s.selectedElementId == some id then none else s.selectedElementId,
      selectedElementType := if s.selectedElementId == some id then none else s.selectedElementType }

/-- `selectElement`, identical in both variants: set both selection fields to
the given arguments, with no validation of any kind. -/
def selectElement (s : NetworkState) (id : Option String) (t : Option ElemKind) : NetworkState :=
  { s with selectedElementId := id, selectedElementType := t }

/-- `loadNetwork`, identical in both variants: wholesale replacement of both
collections; the id counter resynchronizes to
`Math.max(...nodes.map(n => parseInt(n.id) || 0), ...edges.map(e => parseInt(e.id) || 0), 0) + 1`
(the trailing literal `0` argument of `Math.max` is the fold's initial
value); the selection is cleared. -/
def loadNetwork (s : NetworkState) (nodes : List Node) (edges : List Edge) : NetworkState :=
  let maxId := (nodes.map (fun n => parseIntOr0 n.id) ++
                edges.map (fun e => parseIntOr0 e.id)).foldl max 0
  { s with nodes := nodes, edges := edges, selectedElementId := none,
           selectedElementType := none, idCounter := maxId + 1 }

/-- `clearNetwork`, identical in both variants: empty both collections, clear
both selection fields, reset the id counter to 1. Every observable field is
replaced, so the previous state is irrelevant. -/
def clearNetwork (_s : NetworkState) : NetworkState :=
  { nodes := [], edges := [], selectedElementId := none,
    selectedElementType := none, idCounter := 1 }

/-- Modelled from the spec: `applyNodeChanges` belongs to the host diagramming
library, not to this repository's sources; `onNodesChange` folds a change
batch into the node collection and touches nothing else. For reachability
reasoning it is modelled as an arbitrary replacement of the node collection,
an over-approximation subsuming every possible change batch. -/
def onNodesChange (s : NetworkState) (newNodes : List Node) : NetworkState :=
  { s with nodes := newNodes }

/-- Modelled from the spec: `applyEdgeChanges` likewise, for the edge
collection. -/
def onEdgesChange (s : NetworkState) (newEdges : List Edge) : NetworkState :=
  { s with edges := newEdges }

/-! ## Reachability

One step of the store: each constructor records one call to an action with its
arguments. `nodesChange`/`edgesChange` stand for the change-folding actions,
over-approximated as arbitrary replacement of the respective collection. -/

/-- One store action call with its arguments. -/
inductive Op where
  | connectA (c : Connection)
  | connectB (c : Connection)
  | addNode (t : NodeType) (p : Pos)
  | updateNodeData (id : String) (d : NodeData)
  | updateEdgeDataA (id : String) (d : EdgeData)
  | updateEdgeDataB (id : String) (d : EdgeData)
  | deleteElement (id : String) (t : ElemKind)
  | selectElement (id : Option String) (t : Option ElemKind)
  | loadNetwork (ns : List Node) (es : List Edge)
  | clearNetwork
  | nodesChange (ns : List Node)
  | edgesChange (es : List Edge)

/-- Run one store action. -/
def Op.apply (s : NetworkState) : Op → NetworkState
  | Op.connectA c => onConnectA s c
  | Op.connectB c => onConnectB s c
  | Op.addNode t p => Whamo.addNode s t p
  | Op.updateNodeData id d => Whamo.updateNodeData s id d
  | Op.updateEdgeDataA id d => Whamo.updateEdgeDataA s id d
  | Op.updateEdgeDataB id d => Whamo.updateEdgeDataB s id d
  | Op.deleteElement id t => Whamo.deleteElement s id t
  | Op.selectElement id t => Whamo.selectElement s id t
  | Op.loadNetwork ns es => Whamo.loadNetwork s ns es
  | Op.clearNetwork => Whamo.clearNetwork s
  | Op.nodesChange ns => onNodesChange s ns
  | Op.edgesChange es => onEdgesChange s es

/-- A `selectElement` call whose id and type are both null or both non-null;
every other action is unrestricted. -/
def Op.pairedSel : Op → Bool
  | Op.selectElement id t => id.isNone == t.isNone
  | _ => true

/-- The selection-nullity invariant: `selectedElementId` is null exactly when
`selectedElementType` is. -/
def selectionConsistent (s : NetworkState) : Prop :=
  s.selectedElementId = none ↔ s.selectedElementType = none

instance (s : NetworkState) : Decidable (selectionConsistent s) := by
  unfold selectionConsistent; infer_instance

/-! ## The connection-edge renderer -/

/-- The argument record of the host library's `getBezierPath` primitive. -/
structure BezierInput where
  sourceX : Rat
  sourceY : Rat
  sourcePosition : String
  targetX : Rat
  targetY : Rat
  targetPosition : String
  deriving DecidableEq, Repr

/-- The render props `ConnectionEdge` destructures (`style` defaults to the
empty object). -/
structure EdgeRenderProps where
  id : String
  sourceX : Rat
  sourceY : Rat
  targetX : Rat
  targetY : Rat
  sourcePosition : String
  targetPosition : String
  style : EdgeStyle := {}
  markerEnd : Option String := none
  deriving DecidableEq, Repr

/-- What `ConnectionEdge` renders: an SVG `marker` definition (its id and the
triangle's fill color) and a `BaseEdge` with the computed path, a reference to
that marker, and the incoming style with the stroke width forced to 2. -/
structure RenderedEdge where
  markerId : String
  markerFill : String
  path : String
  baseMarkerEnd : String
  baseStyle : EdgeStyle
  deriving DecidableEq, Repr

/-- JS `a || d` on an optional string: the string when present and non-empty
(the empty string is falsy), the default otherwise. -/
def jsStrOr (a : Option String) (d : String) : String :=
  match a with
  | some c => if c == "" then d else c
  | none => d

/-- `ConnectionEdge` from `src/client/src/lib/store.ts`, parameterized by the
host library's `getBezierPath` primitive (external code, passed in as a
function). The triangle marker's fill is `style.stroke || '#3b82f6'`. The
source also computes `angle` from `Math.atan2(targetY - sourceY, targetX -
sourceX)`; that value flows into nothing rendered (dead code, per the spec)
and is therefore not part of the result record. The body is a plain function
of its inputs: no state is read or written. -/
def ConnectionEdge (getBezierPath : BezierInput → String) (p : EdgeRenderProps) : RenderedEdge :=
  let edgePath := getBezierPath
    { sourceX := p.sourceX, sourceY := p.sourceY, sourcePosition := p.sourcePosition,
      targetX := p.targetX, targetY := p.targetY, targetPosition := p.targetPosition }
  { markerId := "arrow-" ++ p.id,
    markerFill := jsStrOr p.style.stroke "#3b82f6",
    path := edgePath,
    baseMarkerEnd := "url(#arrow-" ++ p.id ++ ")",
    baseStyle := { p.style with strokeWidth := some 2 } }

/-! ## Sample values used by concrete parts of the claims -/

/-- The origin position. -/
def samplePos : Pos := {}

/-- A plain node with id "5". -/
def sampleNode5 : Node := { id := "5", type := NodeType.node }

/-- A plain edge with id "7". -/
def sampleEdge7 : Edge := { id := "7", source := "5", target := "5" }

/-! ## Theorems -/

/-- C1: for every state and every node id `n` (in particular every `n` present
in the node collection), `deleteElement n node` removes every node whose id is
`n`, removes every edge whose source or target equals `n`, and keeps exactly
the remaining nodes and edges with their values intact and in their original
relative order (the resulting collections are sublists of the originals). -/
theorem deleteElement_node_cascade (s : NetworkState) (n : String) :
    (∀ nd : Node, nd ∈ (deleteElement s n ElemKind.node).nodes ↔
      nd ∈ s.nodes ∧ nd.id ≠ n) ∧
    List.Sublist (deleteElement s n ElemKind.node).nodes s.nodes ∧
    (∀ e : Edge, e ∈ (deleteElement s n ElemKind.node).edges ↔
      e ∈ s.edges ∧ e.source ≠ n ∧ e.target ≠ n) ∧
    List.Sublist (deleteElement s n ElemKind.node).edges s.edges := by
  refine ⟨fun nd => ?_, ?_, fun e => ?_, ?_⟩
  · simp [deleteElement, List.mem_filter]
  · simp [deleteElement, List.filter_sublist]
  · simp [deleteElement, List.mem_filter, and_assoc]
  · simp [deleteElement, List.filter_sublist]

/-- C2: in both store variants, `onConnect` on a candidate with source `a` and
target `b` appends exactly one new edge — the collection grows by exactly one
element — whose source is `a`, target is `b`, and whose data carries the
default engineering attributes length 1000, diameter 0.5, celerity 1000,
friction 0.02, numSegments 1. The statement quantifies over every candidate,
so it covers self-loops (`a = b`) and duplicates of existing connections
(`addEdge` is modelled from the spec as a plain append). -/
theorem onConnect_appends_default_edge (s : NetworkState) (c : Connection) :
    (∃ e : Edge, (onConnectA s c).edges = s.edges ++ [e] ∧
      e.source = c.source ∧ e.target = c.target ∧
      e.data.length = some 1000 ∧ e.data.diameter = some 0.5 ∧
      e.data.celerity = some 1000 ∧ e.data.friction = some 0.02 ∧
      e.data.numSegments = some 1) ∧
    (onConnectA s c).edges.length = s.edges.length + 1 ∧
    (∃ e : Edge, (onConnectB s c).edges = s.edges ++ [e] ∧
      e.source = c.source ∧ e.target = c.target ∧
      e.data.length = some 1000 ∧ e.data.diameter = some 0.5 ∧
      e.data.celerity = some 1000 ∧ e.data.friction = some 0.02 ∧
      e.data.numSegments = some 1) ∧
    (onConnectB s c).edges.length = s.edges.length + 1 := by
  refine ⟨⟨_, rfl, rfl, rfl, rfl, rfl, rfl, rfl, rfl⟩, ?_,
          ⟨_, rfl, rfl, rfl, rfl, rfl, rfl, rfl, rfl⟩, ?_⟩
  · simp [onConnectA, addEdge]
  · simp [onConnectB, addEdge]

/-- C3: after `loadNetwork nodes edges` the id counter equals one greater than
the maximum numeric-parseable id across both collections — each id read by
`parseInt(id) || 0`, so a non-numeric id contributes 0, and the maximum taken
with base 0 as `Math.max(..., 0)` does — and the selection is cleared.
Concretely, loading a node with id "5" and an edge with id "7" and then adding
a node assigns the new node the id "8". -/
theorem loadNetwork_resyncs_counter (s : NetworkState) (nodes : List Node) (edges : List Edge) :
    ((loadNetwork s nodes edges).idCounter =
      (nodes.map (fun n => parseIntOr0 n.id) ++
       edges.map (fun e => parseIntOr0 e.id)).foldl max 0 + 1 ∧
     (loadNetwork s nodes edges).selectedElementId = none ∧
     (loadNetwork s nodes edges).selectedElementType = none) ∧
    (addNode (loadNetwork initialState [sampleNode5] [sampleEdge7])
        NodeType.node samplePos).nodes.map Node.id = ["5", "8"] :=
  ⟨⟨rfl, rfl, rfl⟩, rfl⟩

/-- C4: `clearNetwork` empties both collections, clears both selection fields,
and resets the id counter to 1, so that an `addNode` performed immediately
afterwards assigns the id "1" — for any prior state, node variant and
position. -/
theorem clearNetwork_resets (s : NetworkState) (t : NodeType) (p : Pos) :
    (clearNetwork s).nodes = [] ∧ (clearNetwork s).edges = [] ∧
    (clearNetwork s).selectedElementId = none ∧
    (clearNetwork s).selectedElementType = none ∧
    (clearNetwork s).idCounter = 1 ∧
    (addNode (clearNetwork s) t p).nodes.map Node.id = ["1"] :=
  ⟨rfl, rfl, rfl, rfl, rfl, rfl⟩

/-- Mapping a function that fixes every member of a list is the identity. -/
lemma map_congr_id {α : Type} (l : List α) (f : α → α) (h : ∀ x ∈ l, f x = x) :
    l.map f = l := by
  induction l with
  | nil => rfl
  | cons a t ih =>
      simp only [List.map_cons, List.cons.injEq]
      exact ⟨h a (by simp), ih (fun x hx => h x (by simp [hx]))⟩

/-- A concrete populated state used to exercise the no-op theorems. -/
def wNet : NetworkState :=
  { nodes := [{ id := "1", type := NodeType.junction }],
    edges := [{ id := "2", source := "1", target := "1" }],
    selectedElementId := none, selectedElementType := none, idCounter := 3 }

/-- C5: when no node carries the given id, `updateNodeData` returns the state
structurally unchanged, and likewise `updateEdgeDataA` when no edge carries
it; `updateEdgeDataB` (the elided stub of the `part_000` variant) is
unconditionally the identity. All store operations are total functions of the
state in this embedding, so none can fail observably. -/
theorem update_missing_id_noop (s : NetworkState) (id : String)
    (dn : NodeData) (de : EdgeData)
    (hn : ∀ nd ∈ s.nodes, nd.id ≠ id) (he : ∀ e ∈ s.edges, e.id ≠ id) :
    updateNodeData s id dn = s ∧ updateEdgeDataA s id de = s ∧
    updateEdgeDataB s id de = s := by
  refine ⟨?_, ?_, rfl⟩
  · unfold updateNodeData
    rw [map_congr_id s.nodes _ (fun x hx => by simp [hn x hx])]
  · unfold updateEdgeDataA
    rw [map_congr_id s.edges _ (fun x hx => by simp [he x hx])]

/-- C5 witness: on a concrete state holding node "1" and edge "2", patching id
"99" leaves the state equal to itself in all three update operations. -/
theorem update_missing_id_noop_run :
    ((∀ nd ∈ wNet.nodes, nd.id ≠ "99") ∧ (∀ e ∈ wNet.edges, e.id ≠ "99")) ∧
    (updateNodeData wNet "99" {} = wNet ∧ updateEdgeDataA wNet "99" {} = wNet ∧
     updateEdgeDataB wNet "99" {} = wNet) :=
  ⟨⟨by decide, by decide⟩,
   update_missing_id_noop wNet "99" {} {} (by decide) (by decide)⟩

/-- A node and an edge that share the id "5", as `loadNetwork` permits. -/
def cEdge5 : Edge := { id := "5", source := "5", target := "5" }

/-- A state whose node collection holds node "5", whose edge collection holds
edge "5", and whose selection points at the edge. -/
def cSelState : NetworkState :=
  { nodes := [sampleNode5], edges := [cEdge5],
    selectedElementId := some "5", selectedElementType := some ElemKind.edge,
    idCounter := 6 }

/-- C6 counterexample: with edge "5" selected, deleting node "5" — an element
other than the selected one — nevertheless clears both selection fields,
because `deleteElement` compares only ids and ignores the element kind. So
deleting an element other than the selected one does not always leave the
selection untouched. -/
theorem deleteElement_clears_other_element_cex :
    cSelState.selectedElementId = some "5" ∧
    cSelState.selectedElementType = some ElemKind.edge ∧
    (deleteElement cSelState "5" ElemKind.node).selectedElementId = none ∧
    (deleteElement cSelState "5" ElemKind.node).selectedElementType = none := by
  decide

/-- C6 amended: `deleteElement` clears both selection fields exactly when the
deleted id equals `selectedElementId`, regardless of the kind argument and of
the selected element's kind; when the ids differ, both fields are left
untouched. In particular, deleting the selected element itself clears the
selection. -/
theorem deleteElement_selection_by_id (s : NetworkState) (id : String) (t : ElemKind) :
    (deleteElement s id t).selectedElementId =
      (if s.selectedElementId = some id then none else s.selectedElementId) ∧
    (deleteElement s id t).selectedElementType =
      (if s.selectedElementId = some id then none else s.selectedElementType) := by
  cases t <;> constructor <;> simp [deleteElement]

/-- Helper for the reachability invariant: every single well-paired action
preserves selection-nullity consistency. -/
lemma selectionConsistent_apply (s : NetworkState) (op : Op)
    (hs : selectionConsistent s) (hop : Op.pairedSel op = true) :
    selectionConsistent (Op.apply s op) := by
  cases op with
  | connectA c => exact hs
  | connectB c => exact hs
  | addNode t p => exact hs
  | updateNodeData id d => exact hs
  | updateEdgeDataA id d => exact hs
  | updateEdgeDataB id d => exact hs
  | deleteElement id t =>
      unfold selectionConsistent at hs ⊢
      cases t <;> simp only [Op.apply, deleteElement] <;>
        by_cases h : s.selectedElementId == some id <;> simp [h, hs]
  | selectElement id t =>
      unfold selectionConsistent
      simp only [Op.pairedSel] at hop
      cases id <;> cases t <;> simp_all [Op.apply, selectElement]
  | loadNetwork ns es => exact ⟨fun _ => rfl, fun _ => rfl⟩
  | clearNetwork => exact ⟨fun _ => rfl, fun _ => rfl⟩
  | nodesChange ns => exact hs
  | edgesChange es => exact hs

/-- C7 counterexample: the store operation `selectElement (some "5") none` is
a single-step sequence from the initial state after which `selectedElementId`
is non-null while `selectedElementType` is null — `selectElement` performs no
validation of its arguments, so the nullity invariant does not survive
arbitrary arguments. -/
theorem selection_nullity_cex :
    (([Op.selectElement (some "5") none].foldl Op.apply initialState).selectedElementId
       = some "5") ∧
    (([Op.selectElement (some "5") none].foldl Op.apply initialState).selectedElementType
       = none) := by
  decide

/-- C7 amended: in every state reachable from the initial state by a sequence
of store operations in which each `selectElement` call passes an id and a type
that are both null or both non-null, `selectedElementId` is null if and only
if `selectedElementType` is null. (The restriction is forced: `selectElement`
itself validates nothing, see the counterexample.) -/
theorem selection_nullity_invariant (ops : List Op)
    (h : ops.all Op.pairedSel = true) :
    selectionConsistent (ops.foldl Op.apply initialState) := by
  have H : ∀ (l : List Op) (s : NetworkState), selectionConsistent s →
      l.all Op.pairedSel = true → selectionConsistent (l.foldl Op.apply s) := by
    intro l
    induction l with
    | nil => intro s hs _; exact hs
    | cons op rest ih =>
        intro s hs hall
        rw [List.all_cons, Bool.and_eq_true] at hall
        exact ih (Op.apply s op) (selectionConsistent_apply s op hs hall.1) hall.2
  exact H ops initialState ⟨fun _ => rfl, fun _ => rfl⟩ h

/-- A concrete well-paired operation sequence. -/
def wOps : List Op :=
  [Op.selectElement (some "3") (some ElemKind.node),
   Op.deleteElement "3" ElemKind.node, Op.clearNetwork]

/-- C7 witness: the invariant holds at the end of a concrete well-paired
operation sequence. -/
theorem selection_nullity_invariant_run :
    (wOps.all Op.pairedSel = true) ∧
    selectionConsistent (wOps.foldl Op.apply initialState) :=
  ⟨by decide, selection_nullity_invariant wOps (by decide)⟩

/-- A concrete conduit edge with the solid blue presentation. -/
def wConduitEdge : Edge :=
  { id := "1", source := "a", target := "b", type := some "conduit",
    style := conduitStyle, markerEnd := some conduitMarker,
    data := { label := some "C-1", type := some LinkType.conduit } }

/-- A state holding just that conduit edge. -/
def wEdgeState : NetworkState :=
  { nodes := [], edges := [wConduitEdge], selectedElementId := none,
    selectedElementType := none, idCounter := 2 }

/-- The patch that switches an edge's variant to `dummy`. -/
def wDummyPatch : EdgeData := { type := some LinkType.dummy }

/-- C8 counterexample: in the `part_000` variant, `updateEdgeData` on the
present edge id "1" with a patch of type `dummy` leaves the edge's solid blue
style and marker untouched (and in fact the whole state unchanged), instead
of the claimed dashed gray — its body is an elided stub. So the claim does
not hold for both variants. -/
theorem updateEdgeDataB_stub_cex :
    (updateEdgeDataB wEdgeState "1" wDummyPatch).edges.map Edge.style = [conduitStyle] ∧
    (updateEdgeDataB wEdgeState "1" wDummyPatch).edges.map Edge.markerEnd = [some conduitMarker] ∧
    conduitStyle.stroke = some "#3b82f6" ∧ conduitStyle.strokeDasharray = none ∧
    dummyStyle.stroke = some "#94a3b8" ∧ dummyStyle.strokeDasharray = some "5,5" := by
  decide

/-- C8 amended: in the `store.ts` variant, for every edge id present in the
collection, `updateEdgeDataA` with a patch of type `dummy` gives every
matching edge the dashed gray default (stroke "#94a3b8", dash "5,5") with the
gray closed-arrow marker, and a patch of type `conduit` gives the solid blue
default (stroke "#3b82f6") with the blue marker; a matching edge remains
present. The `part_000` variant's `updateEdgeData` is an elided stub that
leaves every state unchanged, so the property holds only for the `store.ts`
variant. -/
theorem updateEdgeDataA_recomputes_style (s : NetworkState) (id : String)
    (d : EdgeData) (hid : ∃ e ∈ s.edges, e.id = id) :
    (∃ e ∈ (updateEdgeDataA s id d).edges, e.id = id) ∧
    (∀ e ∈ (updateEdgeDataA s id d).edges, e.id = id →
      (d.type = some LinkType.dummy →
        e.style = dummyStyle ∧ e.markerEnd = some dummyMarker) ∧
      (d.type = some LinkType.conduit →
        e.style = conduitStyle ∧ e.markerEnd = some conduitMarker)) ∧
    (∀ s2 : NetworkState, ∀ id2 : String, ∀ d2 : EdgeData,
      updateEdgeDataB s2 id2 d2 = s2) := by
  refine ⟨?_, ?_, fun _ _ _ => rfl⟩
  · obtain ⟨e, he, heid⟩ := hid
    simp only [updateEdgeDataA, List.mem_map]
    exact ⟨_, ⟨e, he, rfl⟩, by simp [heid]⟩
  · intro e' he' heid'
    simp only [updateEdgeDataA, List.mem_map] at he'
    obtain ⟨a, ha, rfl⟩ := he'
    by_cases h : a.id == id
    · constructor
      · intro hd; simp [h, hd]
      · intro hd; simp [h, hd]
    · simp [h] at heid'
      exact absurd heid' (by simpa using h)

/-- C8 witness: on the concrete one-edge state, switching edge "1" to `dummy`
through the `store.ts` variant recolors it dashed gray, while the `part_000`
variant is the identity. -/
theorem updateEdgeDataA_recomputes_style_run :
    (∃ e ∈ wEdgeState.edges, e.id = "1") ∧
    ((∃ e ∈ (updateEdgeDataA wEdgeState "1" wDummyPatch).edges, e.id = "1") ∧
     (∀ e ∈ (updateEdgeDataA wEdgeState "1" wDummyPatch).edges, e.id = "1" →
       (wDummyPatch.type = some LinkType.dummy →
         e.style = dummyStyle ∧ e.markerEnd = some dummyMarker) ∧
       (wDummyPatch.type = some LinkType.conduit →
         e.style = conduitStyle ∧ e.markerEnd = some conduitMarker)) ∧
     (∀ s2 : NetworkState, ∀ id2 : String, ∀ d2 : EdgeData,
       updateEdgeDataB s2 id2 d2 = s2)) :=
  ⟨by decide,
   updateEdgeDataA_recomputes_style wEdgeState "1" wDummyPatch (by decide)⟩

/-- C9: the triangular arrowhead marker `ConnectionEdge` renders at the path's
terminal end is filled with the input style's stroke color whenever one is
specified (any non-empty string; an absent or empty stroke is falsy in the
source's `style.stroke || '#3b82f6'`), and with the default "#3b82f6" when no
stroke is specified — for every path-generation primitive and every input, so
the rendered output is a pure function of the render inputs by construction
(`ConnectionEdge` is a plain function reading no state). -/
theorem connectionEdge_marker_fill (f : BezierInput → String)
    (p q : EdgeRenderProps) (c : String)
    (hp : p.style.stroke = some c) (hc : c ≠ "") (hq : q.style.stroke = none) :
    (ConnectionEdge f p).markerFill = c ∧
    (ConnectionEdge f q).markerFill = "#3b82f6" := by
  constructor
  · simp [ConnectionEdge, jsStrOr, hp, hc]
  · simp [ConnectionEdge, jsStrOr, hq]

/-- A stand-in for the host library's path primitive. -/
def wBezier : BezierInput → String := fun _ => "M0 0 C 1 1, 1 1, 2 2"

/-- Render props carrying a slate stroke. -/
def wProps : EdgeRenderProps :=
  { id := "e1", sourceX := 0, sourceY := 0, targetX := 1, targetY := 1,
    sourcePosition := "right", targetPosition := "left",
    style := { stroke := some "#64748b", strokeWidth := some 2 } }

/-- Render props with no stroke specified. -/
def wPropsNoStroke : EdgeRenderProps :=
  { id := "e2", sourceX := 0, sourceY := 0, targetX := 1, targetY := 1,
    sourcePosition := "right", targetPosition := "left" }

/-- C9 witness: with a slate stroke the marker is filled slate; with no stroke
it is filled with the default blue. -/
theorem connectionEdge_marker_fill_run :
    (wProps.style.stroke = some "#64748b" ∧ "#64748b" ≠ "" ∧
     wPropsNoStroke.style.stroke = none) ∧
    ((ConnectionEdge wBezier wProps).markerFill = "#64748b" ∧
     (ConnectionEdge wBezier wPropsNoStroke).markerFill = "#3b82f6") :=
  ⟨⟨by decide, by decide, by decide⟩,
   connectionEdge_marker_fill wBezier wProps wPropsNoStroke "#64748b"
     (by decide) (by decide) (by decide)⟩

/-- C10: when the selection points at an edge incident to node `n` whose own
id differs from `n`, `deleteElement n node` removes that edge by cascade yet
leaves both selection fields unchanged, so the selection still points at the
removed edge (a tolerated stale selection). -/
theorem deleteElement_stale_edge_selection (s : NetworkState) (n : String) (e : Edge)
    (_he : e ∈ s.edges) (hinc : e.source = n ∨ e.target = n) (hne : e.id ≠ n)
    (hid : s.selectedElementId = some e.id)
    (ht : s.selectedElementType = some ElemKind.edge) :
    e ∉ (deleteElement s n ElemKind.node).edges ∧
    (deleteElement s n ElemKind.node).selectedElementId = some e.id ∧
    (deleteElement s n ElemKind.node).selectedElementType = some ElemKind.edge := by
  refine ⟨?_, ?_, ?_⟩
  · intro hmem
    simp [deleteElement, List.mem_filter] at hmem
    rcases hinc with h | h
    · exact hmem.2.1 h
    · exact hmem.2.2 h
  · simp [deleteElement, hid, hne]
  · simp [deleteElement, hid, ht, hne]

/-- A state whose selection points at edge "2", which hangs off node "1". -/
def wStaleState : NetworkState :=
  { nodes := [{ id := "1", type := NodeType.reservoir }],
    edges := [{ id := "2", source := "1", target := "3" }],
    selectedElementId := some "2", selectedElementType := some ElemKind.edge,
    idCounter := 3 }

/-- The selected edge of `wStaleState`. -/
def wStaleEdge : Edge := { id := "2", source := "1", target := "3" }

/-- C10 witness: deleting node "1" cascades away the selected edge "2" while
the selection fields keep pointing at it. -/
theorem deleteElement_stale_edge_selection_run :
    (wStaleEdge ∈ wStaleState.edges ∧
     (wStaleEdge.source = "1" ∨ wStaleEdge.target = "1") ∧
     wStaleEdge.id ≠ "1" ∧
     wStaleState.selectedElementId = some wStaleEdge.id ∧
     wStaleState.selectedElementType = some ElemKind.edge) ∧
    (wStaleEdge ∉ (deleteElement wStaleState "1" ElemKind.node).edges ∧
     (deleteElement wStaleState "1" ElemKind.node).selectedElementId = some wStaleEdge.id ∧
     (deleteElement wStaleState "1" ElemKind.node).selectedElementType = some ElemKind.edge) :=
  ⟨⟨by decide, by decide, by decide, by decide, by decide⟩,
   deleteElement_stale_edge_selection wStaleState "1" wStaleEdge
     (by decide) (by decide) (by decide) (by decide) (by decide)⟩

end Whamo

